import Mathlib

/-!
Verification of the employee-churn dashboard logic of
`src/emp-churn-step-by-step/src/app7.py` (h2o-wave `wave-apps`).

The embedded parts are:
* the threshold filter and stats of the `home` handler (lines 114-123):
  `churned_employees = predictions[predictions['Prediction'] > threshold]`,
  `len(churned_employees)`, `len(churned_employees)/len(predictions)`,
  `round(churned_employees.YearsAtCompany.mean())`;
* the feature-importance ranker `get_varimp` (lines 145-153);
* the per-session threshold state: `q.client.threshold = 0.5` in `init`
  (line 73), the read `q.client.threshold if q.args.threshold is None else
  q.args.threshold` in `home` (line 101), and the `threshold` handler
  (lines 136-138) which only calls `home`.

Machine floats of the source are modelled as rationals; Python's `round`
(banker's rounding, round-half-to-even) is `pyRound`; the exceptions the
source can raise while building the stats card (`ZeroDivisionError` on
`len(q.app.predictions) == 0`, `ValueError` from `round(nan)` when the
filtered frame is empty so that `.mean()` is NaN) are an `Except` error type.
-/

/-- One row of `q.app.predictions` after the rename to `Prediction`
(`init_app`, line 36): employee id, churn probability, `YearsAtCompany`. -/
structure PredRow where
  employeeNumber : ℕ
  prediction : ℚ
  yearsAtCompany : ℚ
  deriving Repr, DecidableEq

/-- Line 114: `q.app.predictions[q.app.predictions['Prediction'] > threshold]` —
the rows whose `Prediction` is strictly greater than the threshold. -/
def churned_employees (predictions : List PredRow) (threshold : ℚ) : List PredRow :=
  predictions.filter (fun r => threshold < r.prediction)

/-- Line 119: `len(churned_employees)/len(q.app.predictions)` (as a rational;
the zero-total case is handled in `computeStats`). -/
def churnFraction (predictions : List PredRow) (threshold : ℚ) : ℚ :=
  ((churned_employees predictions threshold).length : ℚ) / (predictions.length : ℚ)

/-- Mean of `YearsAtCompany` over a list of rows
(`churned_employees.YearsAtCompany.mean()`, line 120; NaN when empty —
the empty case is handled in `computeStats`). -/
def meanTenure (rows : List PredRow) : ℚ :=
  (rows.map (fun r => r.yearsAtCompany)).sum / (rows.length : ℚ)

/-- Python's built-in `round` to an integer: round half to even. -/
def pyRound (x : ℚ) : ℤ :=
  let f : ℤ := ⌊x⌋
  let frac : ℚ := x - (f : ℚ)
  if frac < 1/2 then f
  else if 1/2 < frac then f + 1
  else if f % 2 = 0 then f else f + 1

/-- The exceptions the stats card construction (lines 116-123) can raise:
`ZeroDivisionError` from `len(churned_employees)/len(q.app.predictions)`
when the predictions table is empty, and `ValueError` from
`round(churned_employees.YearsAtCompany.mean())` when the filtered frame is
empty, since the mean of an empty column is NaN and `round(nan)` raises
`ValueError: cannot convert float NaN to integer`. -/
inductive StatsError where
  | divisionError
  | valueError
  deriving Repr, DecidableEq

/-- The three summary statistics of the stats card (lines 116-123). -/
structure Stats where
  count : ℕ
  fraction : ℚ
  averageTenure : ℤ
  deriving Repr, DecidableEq

/-- Lines 114-123 of `home`: filter by strict threshold, then build the three
stats in source order — count (`len`), fraction (`len/len`, raising
`ZeroDivisionError` on an empty table), average tenure (`round(mean)`,
raising `ValueError` on an empty filtered frame because `round(nan)` raises). -/
def computeStats (predictions : List PredRow) (threshold : ℚ) : Except StatsError Stats :=
  let churned := churned_employees predictions threshold
  if predictions.length = 0 then
    .error .divisionError
  else if churned.length = 0 then
    .error .valueError
  else
    .ok ⟨churned.length, churnFraction predictions threshold, pyRound (meanTenure churned)⟩

/-! ## Feature-importance ranker (`get_varimp`, lines 145-153) -/

/-- One column of `q.app.shapley`: column name and one value per employee row. -/
structure ShapCol where
  name : String
  values : List ℚ
  deriving Repr, DecidableEq

/-- Python's `pat in s` on strings: `pat` occurs as a contiguous substring of
`s` (at any position, a prefix occurrence included). -/
def pyInStr (pat : List Char) : List Char → Bool
  | [] => pat.isPrefixOf []
  | c :: rest => pat.isPrefixOf (c :: rest) || pyInStr pat rest

/-- Line 146: `[i for i in shapley_vals.columns if 'contrib' in i and i != 'contrib_bias']`
— a column is kept iff its name contains the substring `contrib` anywhere
(Python's `in` on strings) and is not exactly `contrib_bias`. -/
def contribCols (shapley_vals : List ShapCol) : List ShapCol :=
  shapley_vals.filter (fun c => (pyInStr ("contrib".data) c.name.data) && (c.name != "contrib_bias"))

/-- Line 147: `varimp.abs().mean()` for one column — mean of absolute values
over all rows. -/
def meanAbs (c : ShapCol) : ℚ :=
  (c.values.map (fun v => |v|)).sum / (c.values.length : ℚ)

/-- Python `s.replace(pat, "")` for a pattern that is non-empty: delete every
left-to-right, non-overlapping occurrence of `pat` in `s` (line 149 uses it
with `pat = "contrib_"` via `.str.replace("contrib_", "")`, which replaces
all occurrences, not only a leading one). -/
def strDeleteAll (pat : List Char) (s : List Char) : List Char :=
  match s with
  | [] => []
  | c :: rest =>
    if pat ≠ [] ∧ pat.isPrefixOf (c :: rest) then
      strDeleteAll pat (rest.drop (pat.length - 1))
    else
      c :: strDeleteAll pat rest
termination_by s.length
decreasing_by
  all_goals simp [List.length_drop]
  omega

/-- Line 149: `varimp['Feature'].str.replace("contrib_", "")`. -/
def stripContrib (name : String) : String :=
  ⟨strDeleteAll ("contrib_".data) name.data⟩

/-- The sort key of line 150: `sort_values(by="Importance", ascending=False)` —
descending by importance score. -/
def varimpOrder (a b : String × ℚ) : Prop := b.2 ≤ a.2

instance : DecidableRel varimpOrder := fun a b => inferInstanceAs (Decidable (b.2 ≤ a.2))

instance : IsTotal (String × ℚ) varimpOrder :=
  ⟨fun a b => (le_total a.2 b.2).symm.imp (fun h => h) (fun h => h)⟩

instance : IsTrans (String × ℚ) varimpOrder :=
  ⟨fun _ _ _ hab hbc => le_trans hbc hab⟩

/-- Lines 145-153, `get_varimp(shapley_vals, top_n=5)`: keep the `contrib`
columns except `contrib_bias`; build (feature, importance) pairs where the
importance is the mean absolute value of the column and the feature name has
every `contrib_` deleted; sort descending by importance; take the first
`top_n`; reverse (`[::-1]`) so the result is ascending by importance. -/
def get_varimp (shapley_vals : List ShapCol) (top_n : ℕ := 5) : List (String × ℚ) :=
  let varimp := contribCols shapley_vals
  let pairs := varimp.map (fun c => (stripContrib c.name, meanAbs c))
  ((List.insertionSort varimpOrder pairs).take top_n).reverse

/-! ## Per-session threshold state (lines 73, 101, 136-138) -/

/-- The per-browser-session state the threshold logic touches:
`q.client.threshold`. -/
structure ClientState where
  threshold : ℚ
  deriving Repr, DecidableEq

/-- Line 73 of `init`: `q.client.threshold = 0.5` — the only assignment to
`q.client.threshold` anywhere in the program. -/
def initClient : ClientState := ⟨1/2⟩

/-- Line 101 of `home`:
`threshold = q.client.threshold if q.args.threshold is None else q.args.threshold`. -/
def effectiveThreshold (client : ClientState) (argsThreshold : Option ℚ) : ℚ :=
  match argsThreshold with
  | none => client.threshold
  | some t => t

/-- One browser interaction dispatched by `run_on` after `init`: the event
carries `q.args.threshold` (a value for slider events, `none` otherwise).
The handlers — `home`, `threshold` (which only calls `home`, lines 136-138)
and `render_employee` — read the client state but never assign
`q.client.threshold`, so a handler leaves the state unchanged and `home`
renders with the effective threshold of line 101. -/
def handleEvent (client : ClientState) (argsThreshold : Option ℚ) : ClientState × ℚ :=
  (client, effectiveThreshold client argsThreshold)

/-- The client state after a session that runs `init` and then processes the
given sequence of events. -/
def runSession (events : List (Option ℚ)) : ClientState :=
  events.foldl (fun s a => (handleEvent s a).1) initClient

/-! ## The data-dependent part of one `home` render -/

/-- What `home` computes from the loaded tables: the variable-importance list
(line 93, `get_varimp(q.app.shapley)`) and the stats card numbers
(lines 114-123), as a function of the two tables and the rendered
threshold. -/
structure HomeView where
  varimp : List (String × ℚ)
  stats : Except StatsError Stats

/-- One `home` render over the loaded tables at a given threshold: `get_varimp`
is applied to the shapley table alone (the threshold is not an input to it),
and the stats to the predictions table and the threshold. -/
def homeView (predictions : List PredRow) (shapley : List ShapCol) (threshold : ℚ) : HomeView :=
  ⟨get_varimp shapley, computeStats predictions threshold⟩

/-! ## Helper lemmas -/

/-- Python's `pat in s` holds exactly when `pat` occurs as a contiguous
substring of `s` at some position. -/
theorem pyInStr_iff (pat s : List Char) : pyInStr pat s = true ↔ ∃ l r, l ++ pat ++ r = s := by
  induction s with
  | nil =>
    simp only [pyInStr, List.isPrefixOf_iff_prefix, List.prefix_nil]
    constructor
    · rintro rfl
      exact ⟨[], [], rfl⟩
    · rintro ⟨l, r, hlr⟩
      rcases List.append_eq_nil.mp hlr with ⟨h1, h2⟩
      exact (List.append_eq_nil.mp h1).2
  | cons c rest ih =>
    simp only [pyInStr, Bool.or_eq_true, List.isPrefixOf_iff_prefix, ih]
    constructor
    · rintro (⟨t, ht⟩ | ⟨l, r, hlr⟩)
      · exact ⟨[], t, by simpa using ht⟩
      · exact ⟨c :: l, r, by simp [hlr]⟩
    · rintro ⟨l, r, hlr⟩
      cases l with
      | nil => exact Or.inl ⟨r, by simpa using hlr⟩
      | cons x xs =>
        simp only [List.cons_append, List.cons.injEq] at hlr
        exact Or.inr ⟨xs, r, hlr.2⟩

/-- No event handler assigns `q.client.threshold`, so the session state never
moves from its `init` value. -/
theorem runSession_eq_init (events : List (Option ℚ)) : runSession events = initClient := by
  induction events with
  | nil => rfl
  | cons e es ih => exact ih

/-! ## The claims -/

/-- C1: the spec demands that a threshold with an empty selection yields
count = 0, fraction = 0.0 and a defined "no data" sentinel for averageTenure
instead of crashing. The code does not: on a non-empty predictions table in
which no Prediction score strictly exceeds the threshold,
`churned_employees.YearsAtCompany.mean()` is NaN and `round(nan)` raises
`ValueError`, so the stats computation fails (modelled as
`.error .valueError`) rather than producing the demanded sentinel. -/
theorem C1_empty_selection_crashes :
    computeStats [⟨1, 3/5, 4⟩] (9/10) = .error .valueError ∧
    churned_employees [⟨1, 3/5, 4⟩] (9/10) = [] ∧
    ([(⟨1, 3/5, 4⟩ : PredRow)] : List PredRow) ≠ [] := by
  refine ⟨?_, ?_, by simp⟩
  · norm_num [computeStats, churned_employees, List.filter_cons]
  · norm_num [churned_employees, List.filter_cons]

/-- C2 counterexample: on the table with Prediction scores 1/2 and 3/4 and
threshold 1/2 — a threshold less than or equal to the minimum score — the
fraction is 1/2, not 1, because the filter is strict and excludes the row
whose score equals the threshold. -/
theorem C2_cex_threshold_at_minimum :
    ((1:ℚ)/2 ≤ 1/2 ∧ (1:ℚ)/2 ≤ 3/4) ∧
    churnFraction [⟨1, 1/2, 4⟩, ⟨2, 3/4, 6⟩] (1/2) = 1/2 ∧
    churnFraction [⟨1, 1/2, 4⟩, ⟨2, 3/4, 6⟩] (1/2) ≠ 1 := by
  refine ⟨⟨le_refl _, by norm_num⟩, ?_, ?_⟩ <;>
    norm_num [churnFraction, churned_employees, List.filter_cons]

/-- C2 amended: for every non-empty predictions table the fraction lies in
[0, 1]; it equals 1 when the threshold is strictly below every Prediction
score (strictly below the minimum), and equals 0 when the threshold is
greater than or equal to every Prediction score (at or above the maximum). -/
theorem C2_amended_fraction_bounds (rows : List PredRow) (t : ℚ) (h : rows ≠ []) :
    0 ≤ churnFraction rows t ∧ churnFraction rows t ≤ 1 ∧
    ((∀ r ∈ rows, t < r.prediction) → churnFraction rows t = 1) ∧
    ((∀ r ∈ rows, r.prediction ≤ t) → churnFraction rows t = 0) := by
  have hn : (0:ℚ) < (rows.length : ℚ) := by
    exact_mod_cast List.length_pos.mpr h
  refine ⟨?_, ?_, ?_, ?_⟩
  · exact div_nonneg (by positivity) (le_of_lt hn)
  · rw [churnFraction, div_le_one hn]
    exact_mod_cast List.length_filter_le _ _
  · intro hall
    rw [churnFraction, churned_employees,
      List.filter_eq_self.mpr (fun r hr => decide_eq_true (hall r hr))]
    exact div_self (ne_of_gt hn)
  · intro hnone
    rw [churnFraction, churned_employees,
      List.filter_eq_nil_iff.mpr (fun r hr => by simp [not_lt.mpr (hnone r hr)])]
    simp

/-- C2 witness: the amended bounds evaluated on a concrete one-row table. -/
theorem C2_amended_fraction_bounds_witness :
    (([⟨1, 3/5, 4⟩] : List PredRow) ≠ []) ∧
    (0 ≤ churnFraction [⟨1, 3/5, 4⟩] (1/4) ∧ churnFraction [⟨1, 3/5, 4⟩] (1/4) ≤ 1 ∧
     ((∀ r ∈ ([⟨1, 3/5, 4⟩] : List PredRow), (1:ℚ)/4 < r.prediction) →
        churnFraction [⟨1, 3/5, 4⟩] (1/4) = 1) ∧
     ((∀ r ∈ ([⟨1, 3/5, 4⟩] : List PredRow), r.prediction ≤ (1:ℚ)/4) →
        churnFraction [⟨1, 3/5, 4⟩] (1/4) = 0)) :=
  ⟨by simp, C2_amended_fraction_bounds [⟨1, 3/5, 4⟩] (1/4) (by simp)⟩

/-- C3 counterexample: on an attribution matrix whose only column is
`contrib_bias` — zero feature columns after excluding bias — `get_varimp`
returns the empty list normally; nothing in the code raises an
`EmptyDatasetError` (no such error exists in the program). -/
theorem C3_cex_bias_only_returns_empty :
    get_varimp [⟨"contrib_bias", [1]⟩] 5 = [] := by
  simp +decide [get_varimp, contribCols, List.filter_cons]

/-- C3 amended: for every attribution matrix with zero feature columns after
excluding the bias column, the ranker returns the empty list (it does not
fail; there is no EmptyDatasetError in the code). -/
theorem C3_amended_no_feature_columns_nil (m : List ShapCol) (n : ℕ)
    (h : contribCols m = []) : get_varimp m n = [] := by
  simp [get_varimp, h]

/-- C3 witness: the amended statement evaluated on a matrix with a single
non-`contrib` column. -/
theorem C3_amended_no_feature_columns_nil_witness :
    contribCols [⟨"bias", [2]⟩] = [] ∧ get_varimp [⟨"bias", [2]⟩] 5 = [] := by
  have hc : contribCols [⟨"bias", [2]⟩] = [] := by
    simp +decide [contribCols, pyInStr, List.filter_cons]
  exact ⟨hc, C3_amended_no_feature_columns_nil _ 5 hc⟩

/-- C4: the ranker excludes the bias column, ranks the remaining feature
columns by mean absolute value, keeps the first N of the descending sort,
strips the `contrib_` tag, and returns the reversal — so the result has
length at most N and is ascending by importance score; on the matrix with
columns `contrib_A` (mean abs 9/10), `contrib_B` (mean abs 3/10) and
`contrib_bias`, with N = 2 it returns `[("B", 3/10), ("A", 9/10)]`. -/
theorem C4_varimp_algorithm :
    get_varimp [⟨"contrib_A", [9/10]⟩, ⟨"contrib_B", [3/10]⟩, ⟨"contrib_bias", [5]⟩] 2
      = [("B", 3/10), ("A", 9/10)] ∧
    (∀ (m : List ShapCol) (n : ℕ), (get_varimp m n).length ≤ n) ∧
    (∀ (m : List ShapCol) (n : ℕ),
      List.Sorted (fun a b : String × ℚ => a.2 ≤ b.2) (get_varimp m n)) := by
  refine ⟨?_, ?_, ?_⟩
  · simp +decide [get_varimp, contribCols, meanAbs, stripContrib, strDeleteAll, pyInStr,
      varimpOrder, List.filter_cons, List.insertionSort, List.orderedInsert]
    rw [abs_of_nonneg (by norm_num : (0:ℚ) ≤ 3/10), abs_of_nonneg (by norm_num : (0:ℚ) ≤ 9/10)]
    norm_num
  · intro m n
    simp only [get_varimp, List.length_reverse, List.length_take]
    exact min_le_left _ _
  · intro m n
    have hs := List.sorted_insertionSort varimpOrder
      ((contribCols m).map (fun c => (stripContrib c.name, meanAbs c)))
    have ht := hs.sublist (List.take_sublist n _)
    exact List.pairwise_reverse.mpr ht

/-- C5: for every predictions table and thresholds t1 < t2, the number of
rows selected at t1 is at least the number selected at t2 — the filtered
count is monotonically non-increasing in the threshold. -/
theorem C5_count_antitone (rows : List PredRow) (t1 t2 : ℚ) (h : t1 < t2) :
    (churned_employees rows t2).length ≤ (churned_employees rows t1).length := by
  unfold churned_employees
  rw [← List.countP_eq_length_filter, ← List.countP_eq_length_filter]
  exact List.countP_mono_left (fun r _ hp => decide_eq_true (lt_trans h (of_decide_eq_true hp)))

/-- C5 witness: the monotonicity evaluated at thresholds 1/4 < 1/2 on a
concrete two-row table. -/
theorem C5_count_antitone_witness :
    ((1:ℚ)/4 < 1/2) ∧
    (churned_employees [⟨1, 3/5, 4⟩, ⟨2, 3/10, 2⟩] (1/2)).length ≤
      (churned_employees [⟨1, 3/5, 4⟩, ⟨2, 3/10, 2⟩] (1/4)).length :=
  ⟨by norm_num, C5_count_antitone [⟨1, 3/5, 4⟩, ⟨2, 3/10, 2⟩] (1/4) (1/2) (by norm_num)⟩

/-- C6: the filter selects exactly the rows whose Prediction score strictly
exceeds the threshold; whenever the stats computation produces a value, the
count is the number of selected rows, the fraction is count over total, and
averageTenure is the mean tenure of selected rows rounded to the nearest
integer; on the table `[{id 1, score 3/5, tenure 4}, {id 2, score 3/10,
tenure 2}]` with threshold 1/2 it yields count = 1, fraction = 1/2,
averageTenure = 4, and only row 1 is selected. -/
theorem C6_strict_filter_and_stats :
    (∀ (rows : List PredRow) (t : ℚ) (r : PredRow),
        r ∈ churned_employees rows t ↔ r ∈ rows ∧ t < r.prediction) ∧
    (∀ (rows : List PredRow) (t : ℚ),
        computeStats rows t = .error .divisionError ∨
        computeStats rows t = .error .valueError ∨
        computeStats rows t = .ok ⟨(churned_employees rows t).length,
          churnFraction rows t, pyRound (meanTenure (churned_employees rows t))⟩) ∧
    computeStats [⟨1, 3/5, 4⟩, ⟨2, 3/10, 2⟩] (1/2) = .ok ⟨1, 1/2, 4⟩ ∧
    churned_employees [⟨1, 3/5, 4⟩, ⟨2, 3/10, 2⟩] (1/2) = [⟨1, 3/5, 4⟩] := by
  refine ⟨?_, ?_, ?_, ?_⟩
  · intro rows t r
    simp [churned_employees, List.mem_filter]
  · intro rows t
    by_cases h1 : rows.length = 0
    · exact Or.inl (by simp [computeStats, h1])
    · by_cases h2 : (churned_employees rows t).length = 0
      · exact Or.inr (Or.inl (by simp [computeStats, h1, h2]))
      · exact Or.inr (Or.inr (by simp [computeStats, h1, h2]))
  · norm_num [computeStats, churned_employees, churnFraction, meanTenure, pyRound,
      List.filter_cons]
  · norm_num [churned_employees, List.filter_cons]

/-- C7: the stats computation fails with DivisionError exactly when the
predictions table has zero rows; on any non-empty table the division
`count / total` never raises it. -/
theorem C7_division_error_iff (rows : List PredRow) (t : ℚ) :
    computeStats rows t = .error .divisionError ↔ rows = [] := by
  by_cases h1 : rows.length = 0
  · simp [computeStats, h1, List.length_eq_zero.mp h1]
  · have hne : rows ≠ [] := fun hh => h1 (by simp [hh])
    by_cases h2 : (churned_employees rows t).length = 0
    · simp [computeStats, h1, h2, hne]
    · simp [computeStats, h1, h2, hne]

/-- C7 witness: the empty table fails with DivisionError. -/
theorem C7_division_error_iff_witness :
    computeStats [] (1/2) = .error .divisionError :=
  (C7_division_error_iff [] (1/2)).mpr rfl

/-- C8: for every fixed pair of loaded tables, the feature-importance list a
`home` render computes is the same at any two threshold values — the ranking
does not depend on the threshold state. -/
theorem C8_varimp_threshold_independent (predictions : List PredRow)
    (shapley : List ShapCol) (t1 t2 : ℚ) :
    (homeView predictions shapley t1).varimp = (homeView predictions shapley t2).varimp := rfl

/-- C9: a column is ranked iff its name contains the substring `contrib`
anywhere and is not exactly `contrib_bias`; hence a column with `contrib` in
the middle of its name is ranked, a differently named bias-like column
(`xcontrib_bias`) is not excluded, and every occurrence of `contrib_` — not
just a leading one — is removed from the displayed feature name. -/
theorem C9_substring_selection :
    (∀ (m : List ShapCol) (c : ShapCol),
        c ∈ contribCols m ↔
          c ∈ m ∧ (∃ l r, l ++ ("contrib".data) ++ r = c.name.data) ∧
            c.name ≠ "contrib_bias") ∧
    contribCols [⟨"my_contrib_col", [2]⟩] = [⟨"my_contrib_col", [2]⟩] ∧
    get_varimp [⟨"my_contrib_col", [2]⟩] 5 = [("my_col", 2)] ∧
    contribCols [⟨"xcontrib_bias", [2]⟩] = [⟨"xcontrib_bias", [2]⟩] ∧
    stripContrib "contrib_Xcontrib_Y" = "XY" := by
  refine ⟨?_, ?_, ?_, ?_, ?_⟩
  · intro m c
    simp [contribCols, List.mem_filter, pyInStr_iff, and_assoc]
  · simp +decide [contribCols, pyInStr, List.filter_cons]
  · simp +decide [get_varimp, contribCols, meanAbs, stripContrib, strDeleteAll, pyInStr,
      varimpOrder, List.filter_cons, List.insertionSort, List.orderedInsert]
  · simp +decide [contribCols, pyInStr, List.filter_cons]
  · simp +decide [stripContrib, strDeleteAll]

/-- C10: the stored per-session threshold is written exactly once, to 1/2 at
session initialization, and no handler updates it; a recompute uses the
event's threshold when present and otherwise the stored 1/2, so an event
without a threshold payload always renders with threshold 1/2, whatever
events (slider moves included) came before. -/
theorem C10_threshold_written_once :
    (∀ (events : List (Option ℚ)), (runSession events).threshold = 1/2) ∧
    (∀ (events : List (Option ℚ)), (handleEvent (runSession events) none).2 = 1/2) ∧
    (∀ (client : ClientState) (t : ℚ), (handleEvent client (some t)).2 = t) := by
  refine ⟨?_, ?_, ?_⟩
  · intro events
    rw [runSession_eq_init]
    rfl
  · intro events
    rw [runSession_eq_init]
    rfl
  · intro client t
    rfl
